import Mathlib

/-!
Verification of the TensorFlow Lite audio ML orchestrator
(`ml_processor.h` / `ml_processor.cpp` / `jni_wrapper.cpp`).

Modelling conventions (shallow embedding of the C++ source):

* IEEE `float` values are modelled by `ℚ`.  Every float operation the code
  performs on the relevant paths is either exact in `float`
  (int16 → float casts, comparisons, `std::abs`, `max`-tracking) or, for the
  single division by the peak, has the two properties the spec talks about
  (`|x / peak| ≤ 1` when `|x| ≤ peak`, and `peak / peak = 1`) both in real
  float arithmetic and in `ℚ`.
* The TensorFlow Lite engine is a black box behind the C API.  Its observable
  behaviour at the orchestrator boundary is captured by the `Interp`
  structure: whether `TfLiteInterpreterAllocateTensors` succeeded
  (`allocated`), whether `TfLiteInterpreterGetInputTensor` /
  `GetOutputTensor` return non-null (`inputOk` / `outputOk`), whether
  `TfLiteInterpreterInvoke` returns `kTfLiteOk` (`invokeOk`), and the output
  tensor's dimension list and contents (`outputDims`, `outputData`).
* C++ undefined behaviour on the modelled paths is made explicit:
  `Fault.vectorLengthError` models the `std::length_error` thrown by
  `std::vector<float> floatData(length)` when the negative `int` `length` is
  converted to a huge `size_t`; `Fault.oobRead` models
  `TfLiteTensorCopyFromBuffer` reading `MODEL_INPUT_LEN` floats from a
  heap buffer that holds fewer than `MODEL_INPUT_LEN` floats.
* The members `model`, `interpreter`, `options` of class `MLProcessor` have
  no initializers in the C++ source, and the constructor assigns them only
  as its steps are reached.  An early `return` therefore leaves the
  not-yet-assigned members with indeterminate values.  `MLProcessor.construct`
  makes that explicit: it takes the indeterminate pre-construction contents
  (`indet`) as a parameter and overwrites exactly the fields the executed
  constructor steps assign.
* The caller's sample buffer is a `List ℤ` of int16 values and the separate
  `length` argument is an `ℤ` (a C `int`); reads use `List.getD` with
  default 0, which agrees with the real array whenever the index is in
  bounds (the JNI path always passes `length = GetArrayLength(audioData)`).
-/

/-- Number of samples the model expects per inference (`MODEL_INPUT_LEN`
in `ml_processor.h`). -/
def MODEL_INPUT_LEN : ℕ := 512

/-- Undefined-behaviour events on the modelled `processAudio` paths. -/
inductive Fault
  /-- `std::vector<float> floatData(length)` with a negative `int` length:
  the implicit conversion to `size_t` yields a huge allocation request and
  the constructor throws `std::length_error`. -/
  | vectorLengthError
  /-- `TfLiteTensorCopyFromBuffer(inputTensor, floatData.data(),
  MODEL_INPUT_LEN * sizeof(float))` reads `MODEL_INPUT_LEN` floats from a
  buffer holding fewer than `MODEL_INPUT_LEN` floats. -/
  | oobRead
deriving DecidableEq, Repr

/-- Black-box model of the TensorFlow Lite interpreter as observed at the
orchestrator boundary. -/
structure Interp where
  /-- Whether `TfLiteInterpreterAllocateTensors` returned `kTfLiteOk`. -/
  allocated : Bool
  /-- Whether `TfLiteInterpreterGetInputTensor(interpreter, 0)` is non-null. -/
  inputOk : Bool
  /-- Whether `TfLiteInterpreterInvoke` returns `kTfLiteOk`. -/
  invokeOk : Bool
  /-- Whether `TfLiteInterpreterGetOutputTensor(interpreter, 0)` is non-null. -/
  outputOk : Bool
  /-- Sizes `TfLiteTensorDim(outputTensor, i)` for `i < TfLiteTensorNumDims`. -/
  outputDims : List ℕ
  /-- Contents of the output tensor, as floats. -/
  outputData : List ℚ
deriving DecidableEq, Repr

/-- State of a `MLProcessor` object: the three pointer members of the C++
class.  `none` models a null pointer; for `model` and `options` only
nullness is observable, for `interpreter` the black-box `Interp` data. -/
structure MLProcessor where
  model : Option Unit
  interpreter : Option Interp
  options : Option Unit
deriving DecidableEq, Repr

/-- Environment for one run of the constructor: which of the three TFLite
construction calls succeed, and the engine produced on success. -/
structure ConstructEnv where
  /-- `TfLiteModelCreateFromFile(modelPath)` returns non-null. -/
  loadOk : Bool
  /-- `TfLiteInterpreterCreate(model, options)` returns non-null. -/
  createOk : Bool
  /-- `TfLiteInterpreterAllocateTensors(interpreter)` returns `kTfLiteOk`. -/
  allocOk : Bool
  /-- The engine produced by `TfLiteInterpreterCreate` (its `allocated`
  field is overwritten below according to `allocOk`). -/
  engine : Interp
deriving Repr

/-- `MLProcessor::MLProcessor(const char* modelPath)`
(`ml_processor.cpp` lines 47-94).  The members start out with the
indeterminate values `indet` (the C++ class has no member initializers);
each executed step overwrites one member.  Note that a failing
`TfLiteInterpreterAllocateTensors` is only logged: the constructor does not
record the failure in any member and still runs the success log. -/
def MLProcessor.construct (env : ConstructEnv) (indet : MLProcessor) : MLProcessor :=
  -- model = TfLiteModelCreateFromFile(modelPath); if (!model) return;
  let s1 : MLProcessor := { indet with model := if env.loadOk then some () else none }
  if env.loadOk = false then s1
  else
    -- options = TfLiteInterpreterOptionsCreate(); SetNumThreads(options, 2);
    let s2 : MLProcessor := { s1 with options := some () }
    -- interpreter = TfLiteInterpreterCreate(model, options); if (!interpreter) return;
    let s3 : MLProcessor :=
      { s2 with interpreter :=
          if env.createOk then some { env.engine with allocated := false } else none }
    if env.createOk = false then s3
    else if env.allocOk then
      { s3 with interpreter := some { env.engine with allocated := true } }
    else s3

/-- Observable effect of `MLProcessor::~MLProcessor()`
(`ml_processor.cpp` lines 102-111): which of the three null-checked
`TfLite...Delete` calls are executed. -/
structure DestroyEffect where
  deletedInterpreter : Bool
  deletedOptions : Bool
  deletedModel : Bool
deriving DecidableEq, Repr

/-- `MLProcessor::~MLProcessor()`: each member is deleted iff it is
non-null. -/
def MLProcessor.destroy (p : MLProcessor) : DestroyEffect :=
  ⟨p.interpreter.isSome, p.options.isSome, p.model.isSome⟩

/-- Outcome of one `processAudio` call: the returned vector plus the
observable effects of the call (whether a fault occurred, whether
`TfLiteTensorCopyFromBuffer` was issued on the input tensor and with which
`MODEL_INPUT_LEN` floats, and whether `TfLiteInterpreterInvoke` was
called). -/
structure ProcessResult where
  result : List ℚ
  fault : Option Fault
  wroteInput : Bool
  written : List ℚ
  invoked : Bool
deriving DecidableEq, Repr

/-- The `std::vector<float> result` returned by every failure branch. -/
def emptyResult : ProcessResult :=
  { result := [], fault := none, wroteInput := false, written := [], invoked := false }

/-- `static_cast<float>(audioData[i])`: int16 values are exact in float. -/
def rawSample (audio : List ℤ) (i : ℕ) : ℚ := (audio.getD i 0 : ℤ)

/-- `floatData` after the first loop (`ml_processor.cpp` lines 154-163):
`std::vector<float> floatData(length)` value-initializes `length` zeros,
then `for (i = 0; i < MODEL_INPUT_LEN && i < length; i++)` writes the cast
samples. -/
def floatDataRaw (audio : List ℤ) (length : ℕ) : List ℚ :=
  (List.range length).map (fun i => if i < MODEL_INPUT_LEN then rawSample audio i else 0)

/-- `maxAmplitude` after the first loop: starting from `0.0f`, the loop
keeps the larger of the accumulator and `std::abs(floatData[i])` over
`i < MODEL_INPUT_LEN && i < length`. -/
def maxAmplitude (audio : List ℤ) (length : ℕ) : ℚ :=
  ((List.range (min MODEL_INPUT_LEN length)).map (fun i => |rawSample audio i|)).foldl max 0

/-- `floatData` after the normalization loop (`ml_processor.cpp` lines
166-170): if `maxAmplitude > 0.0f` every copied slot is divided by it,
otherwise the buffer is unchanged. -/
def floatData (audio : List ℤ) (length : ℕ) : List ℚ :=
  if 0 < maxAmplitude audio length then
    (List.range length).map
      (fun i => if i < MODEL_INPUT_LEN then rawSample audio i / maxAmplitude audio length else 0)
  else floatDataRaw audio length

/-- Steps 3-7 of `processAudio` (`ml_processor.cpp` lines 179-222), reached
with the `MODEL_INPUT_LEN` floats `w` read for the
`TfLiteTensorCopyFromBuffer` call: run the invoke, fetch the output tensor,
compute `outputSize` as the product of its dimensions (starting from 1),
resize the result and copy the output into it
(`TfLiteTensorCopyToBuffer` leaves the zero-resized vector untouched on a
byte-size mismatch, as its size check fails and the status is ignored). -/
def runEngine (itp : Interp) (w : List ℚ) : ProcessResult :=
  if itp.invokeOk = false then
    { emptyResult with wroteInput := true, written := w, invoked := true }
  else if itp.outputOk = false then
    { emptyResult with wroteInput := true, written := w, invoked := true }
  else
    { result :=
        if itp.outputData.length = itp.outputDims.prod then itp.outputData
        else List.replicate itp.outputDims.prod 0,
      fault := none, wroteInput := true, written := w, invoked := true }

/-- `MLProcessor::processAudio(const int16_t* audioData, int length)`
(`ml_processor.cpp` lines 128-223).  Note the function itself never checks
`length`: a negative length faults in the `std::vector` constructor and a
length below `MODEL_INPUT_LEN` makes the fixed-size
`TfLiteTensorCopyFromBuffer` read past the end of `floatData`. -/
def MLProcessor.processAudio (p : MLProcessor) (audio : List ℤ) (length : ℤ) :
    ProcessResult :=
  match p.interpreter with
  | none => emptyResult                      -- if (!interpreter) return result;
  | some itp =>
    if itp.inputOk = false then emptyResult  -- if (!inputTensor) return result;
    else if length < 0 then                  -- std::vector<float> floatData(length);
      { emptyResult with fault := some Fault.vectorLengthError }
    else if (floatData audio length.toNat).length < MODEL_INPUT_LEN then
      { emptyResult with fault := some Fault.oobRead, wroteInput := true }
    else
      runEngine itp ((floatData audio length.toNat).take MODEL_INPUT_LEN)

/-- `nativeProcessAudio` (`jni_wrapper.cpp` lines 117-161): null-handle
check, then `length = GetArrayLength(audioData)` with the `length <= 0`
guard, then the call into the core.  The JNI array-pinning failure branch
(`GetShortArrayElements` returning null) is environmental and not
modelled. -/
def nativeProcessAudio (proc : Option MLProcessor) (audio : List ℤ) : ProcessResult :=
  match proc with
  | none => emptyResult
  | some p =>
    if (audio.length : ℤ) ≤ 0 then emptyResult
    else p.processAudio audio (audio.length : ℤ)

/-- Outcome of one `nativeClose` call (`jni_wrapper.cpp` lines 180-192):
the live-handle set afterwards, whether `delete` ran, and whether that
`delete` freed a pointer that was not live (a double-free / invalid
free). -/
structure CloseResult where
  heap : List ℕ
  deleted : Bool
  doubleFree : Bool
deriving DecidableEq, Repr

/-- `nativeClose(env, this, handle)`: the handle is cast back to a pointer;
a null (0) handle only logs, any nonzero handle is passed to `delete`.
`heap` is the set of currently live `MLProcessor` pointers; `delete` on a
nonzero pointer not in it is a double-free. -/
def nativeClose (heap : List ℕ) (handle : ℕ) : CloseResult :=
  if handle = 0 then ⟨heap, false, false⟩
  else ⟨heap.erase handle, true, !(heap.contains handle)⟩

/-! Concrete instances used in the claim theorems and witnesses. -/

/-- A fully working black-box engine: every TFLite call succeeds and the
output tensor has shape `[10]` with ten stored floats. -/
def engGood : Interp :=
  { allocated := true, inputOk := true, invokeOk := true, outputOk := true,
    outputDims := [10], outputData := List.replicate 10 (3/10 : ℚ) }

/-- A successfully constructed orchestrator. -/
def pGood : MLProcessor :=
  { model := some (), interpreter := some engGood, options := some () }

/-- An engine as produced by `TfLiteInterpreterCreate`, otherwise
healthy. -/
def engBase : Interp :=
  { allocated := false, inputOk := true, invokeOk := true, outputOk := true,
    outputDims := [10], outputData := List.replicate 10 (3/10 : ℚ) }

/-- Constructor environment in which only `TfLiteInterpreterAllocateTensors`
fails. -/
def envAllocFail : ConstructEnv :=
  { loadOk := true, createOk := true, allocOk := false, engine := engBase }

/-- Constructor environment in which `TfLiteModelCreateFromFile` fails
(e.g. `modelPath = "/nonexistent"`). -/
def envLoadFail : ConstructEnv :=
  { loadOk := false, createOk := true, allocOk := true, engine := engBase }

/-- Pre-construction member contents that happen to be all zero bytes.
Nothing in the C++ program guarantees this. -/
def indetZero : MLProcessor := { model := none, interpreter := none, options := none }

/-- Pre-construction member contents in which the uninitialized
`interpreter` and `options` bytes happen to be nonzero: one possible value
of the indeterminate members the C++ constructor never assigns on the
load-failure path. -/
def indetGarbage : MLProcessor :=
  { model := some (), interpreter := some engGood, options := some () }

/-- A 1024-sample window: 512 fives then 512 more fives. -/
def a1W : List ℤ := List.replicate 1024 5

/-- A 1024-sample window agreeing with `a1W` on the first
`MODEL_INPUT_LEN` samples and differing on all later ones. -/
def a2W : List ℤ := List.replicate MODEL_INPUT_LEN 5 ++ List.replicate 512 7

/-- The peak-normalization contract of the Audio Preprocessor for a window
`audio` with sample count `length`: the tracked `maxAmplitude` is the
maximum absolute value over the copied prefix of
`min MODEL_INPUT_LEN length` samples (an upper bound that is attained);
when it is positive every copied slot holds the sample divided by it, all
copied slots lie in `[-1, 1]` and some slot has absolute value exactly 1;
when it is zero the buffer is left all-zero with no division. -/
def NormSpec (audio : List ℤ) (length : ℕ) : Prop :=
  (∀ i < min MODEL_INPUT_LEN length, |rawSample audio i| ≤ maxAmplitude audio length)
  ∧ (∃ i < min MODEL_INPUT_LEN length, |rawSample audio i| = maxAmplitude audio length)
  ∧ (0 < maxAmplitude audio length →
      (∀ i < min MODEL_INPUT_LEN length,
        (floatData audio length).getD i 0
            = rawSample audio i / maxAmplitude audio length
        ∧ |(floatData audio length).getD i 0| ≤ 1)
      ∧ ∃ i < min MODEL_INPUT_LEN length, |(floatData audio length).getD i 0| = 1)
  ∧ (maxAmplitude audio length = 0 →
      floatData audio length = List.replicate length 0)

/-! Helper lemmas about the fold that tracks `maxAmplitude` and about
`floatData`. -/

lemma init_le_foldl_max (l : List ℚ) (init : ℚ) : init ≤ l.foldl max init := by
  induction l generalizing init with
  | nil => exact le_refl _
  | cons x xs ih => exact le_trans (le_max_left init x) (ih (max init x))

lemma le_foldl_max (l : List ℚ) : ∀ (init a : ℚ), a ∈ l → a ≤ l.foldl max init := by
  induction l with
  | nil => intro _ _ h; cases h
  | cons x xs ih =>
    intro init a h
    rcases List.mem_cons.mp h with rfl | hmem
    · exact le_trans (le_max_right init a) (init_le_foldl_max xs (max init a))
    · exact ih (max init x) a hmem

lemma foldl_max_mem (l : List ℚ) :
    ∀ init : ℚ, l.foldl max init = init ∨ l.foldl max init ∈ l := by
  induction l with
  | nil => intro _; exact Or.inl rfl
  | cons x xs ih =>
    intro init
    rw [List.foldl_cons]
    rcases ih (max init x) with h | h
    · rw [h]
      rcases max_choice init x with h' | h'
      · exact Or.inl h'
      · exact Or.inr (by rw [h']; exact List.mem_cons_self x xs)
    · exact Or.inr (List.mem_cons_of_mem x h)

lemma getD_range_map (f : ℕ → ℚ) (len i : ℕ) (h : i < len) :
    ((List.range len).map f).getD i 0 = f i := by
  have hl : i < ((List.range len).map f).length := by simpa using h
  rw [List.getD_eq_getElem _ _ hl]
  simp

lemma floatData_length (audio : List ℤ) (length : ℕ) :
    (floatData audio length).length = length := by
  unfold floatData floatDataRaw
  split <;> simp

lemma maxAmplitude_nonneg (audio : List ℤ) (length : ℕ) :
    0 ≤ maxAmplitude audio length :=
  init_le_foldl_max _ _

lemma abs_rawSample_le_maxAmplitude (audio : List ℤ) (length i : ℕ)
    (h : i < min MODEL_INPUT_LEN length) :
    |rawSample audio i| ≤ maxAmplitude audio length :=
  le_foldl_max _ 0 _ (List.mem_map.mpr ⟨i, List.mem_range.mpr h, rfl⟩)

lemma maxAmplitude_attained (audio : List ℤ) (length : ℕ)
    (h : 0 < min MODEL_INPUT_LEN length) :
    ∃ i < min MODEL_INPUT_LEN length, |rawSample audio i| = maxAmplitude audio length := by
  rcases foldl_max_mem
      ((List.range (min MODEL_INPUT_LEN length)).map (fun i => |rawSample audio i|)) 0 with
    h0 | hm
  · refine ⟨0, h, ?_⟩
    have h2 : maxAmplitude audio length = 0 := h0
    have h1 := abs_rawSample_le_maxAmplitude audio length 0 h
    rw [h2] at h1 ⊢
    exact le_antisymm h1 (abs_nonneg _)
  · rcases List.mem_map.mp hm with ⟨i, hi, hv⟩
    exact ⟨i, List.mem_range.mp hi, hv⟩

lemma floatData_getD_lt (audio : List ℤ) (length i : ℕ)
    (h1 : i < length) (h2 : i < MODEL_INPUT_LEN) :
    (floatData audio length).getD i 0 =
      if 0 < maxAmplitude audio length then
        rawSample audio i / maxAmplitude audio length
      else rawSample audio i := by
  by_cases hm : 0 < maxAmplitude audio length
  · rw [if_pos hm]
    unfold floatData
    rw [if_pos hm, getD_range_map _ _ _ h1, if_pos h2]
  · rw [if_neg hm]
    unfold floatData floatDataRaw
    rw [if_neg hm, getD_range_map _ _ _ h1, if_pos h2]

lemma floatData_getD_pad (audio : List ℤ) (length i : ℕ) (h : MODEL_INPUT_LEN ≤ i) :
    (floatData audio length).getD i 0 = 0 := by
  rcases lt_or_le i length with h1 | h1
  · unfold floatData floatDataRaw
    split <;> rw [getD_range_map _ _ _ h1, if_neg (by omega)]
  · rw [List.getD_eq_getElem?_getD, List.getElem?_eq_none (by rw [floatData_length]; exact h1)]
    rfl

lemma runEngine_wrote (itp : Interp) (w : List ℚ) :
    (runEngine itp w).wroteInput = true := by
  unfold runEngine
  split_ifs <;> rfl

lemma runEngine_invoked (itp : Interp) (w : List ℚ) :
    (runEngine itp w).invoked = true := by
  unfold runEngine
  split_ifs <;> rfl

lemma runEngine_written (itp : Interp) (w : List ℚ) :
    (runEngine itp w).written = w := by
  unfold runEngine
  split_ifs <;> rfl

lemma runEngine_result_length (itp : Interp) (w : List ℚ)
    (hiv : itp.invokeOk = true) (hout : itp.outputOk = true) :
    (runEngine itp w).result.length = itp.outputDims.prod := by
  unfold runEngine
  rw [if_neg (by simp [hiv]), if_neg (by simp [hout])]
  by_cases h : itp.outputData.length = itp.outputDims.prod
  · simp [h]
  · simp [h]

lemma processAudio_run (p : MLProcessor) (itp : Interp) (audio : List ℤ) (length : ℤ)
    (hp : p.interpreter = some itp) (hin : itp.inputOk = true)
    (hlen : (MODEL_INPUT_LEN : ℤ) ≤ length) :
    p.processAudio audio length =
      runEngine itp ((floatData audio length.toNat).take MODEL_INPUT_LEN) := by
  have hlen' : (512 : ℤ) ≤ length := by simpa [ MODEL_INPUT_LEN] using hlen
  have h0 : ¬ length < 0 := by omega
  have hge : ¬ (floatData audio length.toNat).length < MODEL_INPUT_LEN := by
    rw [floatData_length]
    simp only [ MODEL_INPUT_LEN]
    omega
  simp only [MLProcessor.processAudio, hp, hin]
  rw [if_neg (by simp), if_neg h0, if_neg hge]

lemma maxAmplitude_congr (a1 a2 : List ℤ) (n1 n2 : ℕ)
    (h1 : MODEL_INPUT_LEN ≤ n1) (h2 : MODEL_INPUT_LEN ≤ n2)
    (hagree : ∀ i < MODEL_INPUT_LEN, a1.getD i 0 = a2.getD i 0) :
    maxAmplitude a1 n1 = maxAmplitude a2 n2 := by
  unfold maxAmplitude
  rw [min_eq_left h1, min_eq_left h2]
  refine congrArg (List.foldl max 0) ?_
  apply List.map_congr_left
  intro i hi
  rw [List.mem_range] at hi
  unfold rawSample
  rw [hagree i hi]

lemma floatData_take_congr (a1 a2 : List ℤ) (n1 n2 : ℕ)
    (h1 : MODEL_INPUT_LEN ≤ n1) (h2 : MODEL_INPUT_LEN ≤ n2)
    (hagree : ∀ i < MODEL_INPUT_LEN, a1.getD i 0 = a2.getD i 0) :
    (floatData a1 n1).take MODEL_INPUT_LEN = (floatData a2 n2).take MODEL_INPUT_LEN := by
  have hmeq := maxAmplitude_congr a1 a2 n1 n2 h1 h2 hagree
  unfold floatData floatDataRaw
  rw [← hmeq]
  split
  · rw [← List.map_take, ← List.map_take, List.take_range, List.take_range,
      inf_eq_left.mpr h1, inf_eq_left.mpr h2]
    apply List.map_congr_left
    intro i hi
    rw [List.mem_range] at hi
    rw [if_pos hi, if_pos hi]
    unfold rawSample
    rw [hagree i hi]
  · rw [← List.map_take, ← List.map_take, List.take_range, List.take_range,
      inf_eq_left.mpr h1, inf_eq_left.mpr h2]
    apply List.map_congr_left
    intro i hi
    rw [List.mem_range] at hi
    rw [if_pos hi, if_pos hi]
    unfold rawSample
    rw [hagree i hi]

lemma a1W_a2W_agree : ∀ i < MODEL_INPUT_LEN, a1W.getD i 0 = a2W.getD i 0 := by
  intro i hi
  have hi' : i < 512 := by simpa [ MODEL_INPUT_LEN] using hi
  have h1 : i < 1024 := by omega
  unfold a1W a2W
  rw [List.getD_eq_getElem?_getD, List.getD_eq_getElem?_getD, List.getElem?_append,
    List.length_replicate, if_pos hi, List.getElem?_replicate, List.getElem?_replicate,
    if_pos h1, if_pos hi]

/-- C5 (confirmed): the preprocessor contract `NormSpec` holds for every
window with a positive sample count: the tracked peak is the attained
maximum absolute value over the copied `min(length, MODEL_INPUT_LEN)`
samples; a positive peak divides every copied value into `[-1, 1]` with
absolute value 1 attained; a zero peak (silence) leaves the buffer all
zero with no division (`ml_processor.cpp` lines 154-170). -/
theorem C5_peak_normalize (audio : List ℤ) (length : ℕ) (h : 0 < length) :
    NormSpec audio length := by
  have h512 : 0 < MODEL_INPUT_LEN := by decide
  have hmin : 0 < min MODEL_INPUT_LEN length := lt_min h512 h
  refine ⟨fun i hi => abs_rawSample_le_maxAmplitude audio length i hi,
    maxAmplitude_attained audio length hmin, ?_, ?_⟩
  · intro hpk
    constructor
    · intro i hi
      have hI1 : i < length := lt_of_lt_of_le hi (min_le_right _ _)
      have hI2 : i < MODEL_INPUT_LEN := lt_of_lt_of_le hi (min_le_left _ _)
      rw [floatData_getD_lt audio length i hI1 hI2, if_pos hpk]
      refine ⟨rfl, ?_⟩
      rw [abs_div, abs_of_pos hpk, div_le_one hpk]
      exact abs_rawSample_le_maxAmplitude audio length i hi
    · rcases maxAmplitude_attained audio length hmin with ⟨i, hi, hv⟩
      refine ⟨i, hi, ?_⟩
      have hI1 : i < length := lt_of_lt_of_le hi (min_le_right _ _)
      have hI2 : i < MODEL_INPUT_LEN := lt_of_lt_of_le hi (min_le_left _ _)
      rw [floatData_getD_lt audio length i hI1 hI2, if_pos hpk, abs_div,
        abs_of_pos hpk, hv, div_self (ne_of_gt hpk)]
  · intro hpk
    have hz : ∀ i < min MODEL_INPUT_LEN length, rawSample audio i = 0 := by
      intro i hi
      have hle := abs_rawSample_le_maxAmplitude audio length i hi
      rw [hpk] at hle
      exact abs_eq_zero.mp (le_antisymm hle (abs_nonneg _))
    unfold floatData floatDataRaw
    rw [if_neg (by rw [hpk]; exact lt_irrefl 0)]
    apply List.ext_getElem
    · simp
    · intro i h1 h2
      have hil : i < length := by simpa using h1
      simp only [List.getElem_map, List.getElem_range, List.getElem_replicate]
      by_cases hc : i < MODEL_INPUT_LEN
      · rw [if_pos hc]
        exact hz i (lt_min hc hil)
      · rw [if_neg hc]

/-- Witness for C5 at the window `[3, -7, 2]` of length 3. -/
theorem C5_peak_normalize_witness : 0 < 3 ∧ NormSpec [3, -7, 2] 3 :=
  ⟨by decide, C5_peak_normalize [3, -7, 2] 3 (by decide)⟩

/-- C1 (code_bug): when `TfLiteModelCreateFromFile` fails the constructor
returns early, so `model` is indeed null and the remaining construction
steps are skipped — but `interpreter` and `options` are raw pointer
members without initializers that the early return leaves indeterminate.
For indeterminate contents whose bytes are nonzero (`indetGarbage`), the
resulting object has a non-null `interpreter`, a subsequent `processAudio`
passes the `if (!interpreter)` guard and returns a non-empty vector built
from whatever the garbage handle yields instead of the claimed empty one,
and the destructor's null check passes so it deletes the garbage
pointer. -/
theorem C1_load_failure_leaves_members_uninitialized :
    (MLProcessor.construct envLoadFail indetGarbage).model = none
    ∧ (MLProcessor.construct envLoadFail indetGarbage).interpreter = some engGood
    ∧ ((MLProcessor.construct envLoadFail indetGarbage).processAudio
        (List.replicate 512 (0:ℤ)) 512).result ≠ []
    ∧ (MLProcessor.construct envLoadFail indetGarbage).destroy.deletedInterpreter = true := by
  refine ⟨rfl, rfl, ?_, rfl⟩
  rw [processAudio_run _ engGood _ 512 rfl rfl (by decide)]
  intro hnil
  have hL := runEngine_result_length engGood
      ((floatData (List.replicate 512 (0:ℤ)) (512:ℤ).toNat).take MODEL_INPUT_LEN) rfl rfl
  rw [hnil] at hL
  simp [engGood] at hL

/-- C2 (confirmed): a zero-length audio array is rejected by the
`length <= 0` guard in `nativeProcessAudio` (`jni_wrapper.cpp` lines
129-133) before the core runs: the returned PredictionVector is empty and
no preprocessing, tensor write, invoke or fault occurs.  (The guard lives
in the JNI wrapper; `MLProcessor::processAudio` itself has no length
check.) -/
theorem C2_zero_length_empty (p : MLProcessor) (audio : List ℤ)
    (h : audio.length = 0) :
    nativeProcessAudio (some p) audio = emptyResult := by
  simp [nativeProcessAudio, h]

/-- Witness for C2 at the concrete empty array. -/
theorem C2_zero_length_empty_witness :
    List.length ([] : List ℤ) = 0 ∧ nativeProcessAudio (some pGood) [] = emptyResult :=
  ⟨rfl, C2_zero_length_empty pGood [] rfl⟩

set_option maxRecDepth 8192 in
/-- C3 (code_bug): for `0 < length < MODEL_INPUT_LEN` the code allocates
`std::vector<float> floatData(length)` with `length` slots, not
`MODEL_INPUT_LEN`, and then `TfLiteTensorCopyFromBuffer` copies
`MODEL_INPUT_LEN * sizeof(float)` bytes from it: at `length = 100` the
buffer has 100 slots and the copy reads 412 floats past its end, so the
claimed in-bounds zero-padded 512-float buffer does not exist. -/
theorem C3_short_input_reads_out_of_bounds :
    (floatData (List.replicate 100 (7:ℤ)) 100).length = 100
    ∧ (pGood.processAudio (List.replicate 100 (7:ℤ)) 100).fault = some Fault.oobRead := by
  constructor
  · rw [floatData_length]
  · decide

/-- C4 (code_bug): a failing `TfLiteInterpreterAllocateTensors` is only
logged (`ml_processor.cpp` lines 88-90): the constructor keeps the
interpreter handle, records nothing, and even runs the success log.
`processAudio` checks only `interpreter != null`, so on an orchestrator
whose allocation step failed the call is not rejected: the input-tensor
write and the invoke are both issued against the unallocated engine. -/
theorem C4_alloc_failure_not_rejected :
    (MLProcessor.construct envAllocFail indetZero).interpreter = some engBase
    ∧ ((MLProcessor.construct envAllocFail indetZero).processAudio
        (List.replicate 512 (0:ℤ)) 512).wroteInput = true
    ∧ ((MLProcessor.construct envAllocFail indetZero).processAudio
        (List.replicate 512 (0:ℤ)) 512).invoked = true := by
  refine ⟨rfl, ?_, ?_⟩
  · rw [processAudio_run _ engBase _ 512 rfl rfl (by decide), runEngine_wrote]
  · rw [processAudio_run _ engBase _ 512 rfl rfl (by decide), runEngine_invoked]

/-- C6 (confirmed): on the success path (interpreter and input tensor
present, invoke returned `kTfLiteOk`, output tensor present) the returned
vector is resized to `outputSize`, the product over
`TfLiteTensorNumDims` of `TfLiteTensorDim` read from the output tensor at
runtime (`ml_processor.cpp` lines 209-220), so its length equals the
product of the output tensor's dimension sizes. -/
theorem C6_output_length (p : MLProcessor) (itp : Interp) (audio : List ℤ)
    (length : ℤ) (hp : p.interpreter = some itp) (hin : itp.inputOk = true)
    (hiv : itp.invokeOk = true) (hout : itp.outputOk = true)
    (hlen : (MODEL_INPUT_LEN : ℤ) ≤ length) :
    (p.processAudio audio length).result.length = itp.outputDims.prod := by
  rw [processAudio_run p itp audio length hp hin hlen,
    runEngine_result_length itp _ hiv hout]

/-- Witness for C6 on a working orchestrator with output shape `[10]` and
a full 512-sample window. -/
theorem C6_output_length_witness :
    pGood.interpreter = some engGood
    ∧ (pGood.processAudio (List.replicate 512 (0:ℤ)) 512).result.length
        = engGood.outputDims.prod :=
  ⟨rfl, C6_output_length pGood engGood (List.replicate 512 0) 512 rfl rfl rfl rfl (by decide)⟩

/-- C7 counterexample: the handle is a raw pointer cast to a `jlong`, so a
second `nativeClose` on the same nonzero handle passes the
`if (processor)` check again and runs `delete` on the already-freed
pointer — a double-free (`jni_wrapper.cpp` lines 185-191). -/
theorem C7_double_close_double_frees :
    (nativeClose (nativeClose [1] 1).heap 1).doubleFree = true := by
  decide

/-- C7 as amended: `nativeClose` on the null (0) handle is a no-op with a
diagnostic log and never faults, and the first close of a live nonzero
handle frees it without fault; only a repeated close of the same nonzero
handle double-frees, so close is safe to call exactly once per handle (as
the external-interface contract states). -/
theorem C7_close_once_safe (heap : List ℕ) (h : ℕ) :
    nativeClose heap 0 = ⟨heap, false, false⟩
    ∧ (h ≠ 0 → heap.contains h = true → (nativeClose heap h).doubleFree = false) := by
  constructor
  · rw [nativeClose, if_pos rfl]
  · intro hne hmem
    rw [nativeClose, if_neg hne]
    show (!(heap.contains h)) = false
    rw [hmem]
    rfl

/-- Witness for the amended C7 on the heap `[5, 9]` and handle 5. -/
theorem C7_close_once_safe_witness :
    nativeClose [5, 9] 0 = ⟨[5, 9], false, false⟩
    ∧ (nativeClose [5, 9] 5).doubleFree = false :=
  ⟨(C7_close_once_safe [5, 9] 5).1,
    (C7_close_once_safe [5, 9] 5).2 (by decide) (by decide)⟩

/-- C8 counterexample: `MLProcessor::processAudio` itself never checks the
sign of `length`; at `length = -1` the `std::vector<float>
floatData(length)` allocation converts the negative `int` to a huge
`size_t` and throws, so the call faults rather than returning the claimed
empty vector with no exception. -/
theorem C8_negative_length_faults :
    (pGood.processAudio [] (-1)).fault = some Fault.vectorLengthError := by
  decide

/-- C8 as amended: on an initialized orchestrator whose input tensor is
available, every negative `length` makes the core fault in the
length-sized buffer allocation (an exception, not an empty result); the
JNI boundary's `length <= 0` guard is what keeps negative or zero lengths
from ever reaching the core. -/
theorem C8_negative_length_faults_in_core (p : MLProcessor) (itp : Interp)
    (audio : List ℤ) (l : ℤ) (hp : p.interpreter = some itp)
    (hin : itp.inputOk = true) (hneg : l < 0) :
    p.processAudio audio l = { emptyResult with fault := some Fault.vectorLengthError } := by
  simp only [MLProcessor.processAudio, hp, hin]
  rw [if_neg (by simp), if_pos hneg]

/-- Witness for the amended C8 at `length = -1`. -/
theorem C8_negative_length_faults_in_core_witness :
    pGood.interpreter = some engGood ∧ (-1 : ℤ) < 0
    ∧ pGood.processAudio [] (-1)
        = { emptyResult with fault := some Fault.vectorLengthError } :=
  ⟨rfl, by decide, C8_negative_length_faults_in_core pGood engGood [] (-1) rfl rfl (by decide)⟩

/-- C9 (confirmed): `processAudio` consumes only the first
`MODEL_INPUT_LEN` samples when `length` exceeds it: both copy loops stop
at `MODEL_INPUT_LEN` and `TfLiteTensorCopyFromBuffer` copies exactly
`MODEL_INPUT_LEN` floats, so two calls on the same orchestrator state
whose inputs agree on the first `MODEL_INPUT_LEN` samples write the same
normalized data to the input tensor and return identical results. -/
theorem C9_first_window_determines (p : MLProcessor) (a1 a2 : List ℤ) (l1 l2 : ℤ)
    (h1 : (MODEL_INPUT_LEN : ℤ) < l1) (h2 : (MODEL_INPUT_LEN : ℤ) < l2)
    (hagree : ∀ i < MODEL_INPUT_LEN, a1.getD i 0 = a2.getD i 0) :
    (p.processAudio a1 l1).written = (p.processAudio a2 l2).written
    ∧ p.processAudio a1 l1 = p.processAudio a2 l2 := by
  have key : p.processAudio a1 l1 = p.processAudio a2 l2 := by
    cases hI : p.interpreter with
    | none => simp [MLProcessor.processAudio, hI]
    | some itp =>
      by_cases hin : itp.inputOk = true
      · rw [processAudio_run p itp a1 l1 hI hin (le_of_lt h1),
          processAudio_run p itp a2 l2 hI hin (le_of_lt h2)]
        have hn1 : MODEL_INPUT_LEN ≤ l1.toNat := by omega
        have hn2 : MODEL_INPUT_LEN ≤ l2.toNat := by omega
        rw [floatData_take_congr a1 a2 l1.toNat l2.toNat hn1 hn2 hagree]
      · have hin' : itp.inputOk = false := by simpa using hin
        simp [MLProcessor.processAudio, hI, hin']
  exact ⟨by rw [key], key⟩

/-- Witness for C9: two 1024-sample windows agreeing on the first 512
samples and differing on all 512 later ones give equal calls. -/
theorem C9_first_window_determines_witness :
    ((MODEL_INPUT_LEN : ℤ) < 1024)
    ∧ pGood.processAudio a1W 1024 = pGood.processAudio a2W 1024 :=
  ⟨by decide,
    (C9_first_window_determines pGood a1W a2W 1024 1024 (by decide) (by decide)
      a1W_a2W_agree).2⟩

/-- C10 (confirmed): `outputSize` starts at 1 and multiplies in each
runtime dimension (`ml_processor.cpp` lines 209-212), so a rank-0 output
tensor yields a vector of length 1, and on the success path the result is
empty exactly when some output dimension is 0 — an empty result from any
other run indicates a failure branch. -/
theorem C10_rank0_length_one_empty_iff_zero_dim (p : MLProcessor) (itp : Interp)
    (audio : List ℤ) (length : ℤ) (hp : p.interpreter = some itp)
    (hin : itp.inputOk = true) (hiv : itp.invokeOk = true)
    (hout : itp.outputOk = true) (hlen : (MODEL_INPUT_LEN : ℤ) ≤ length) :
    (p.processAudio audio length).result.length = itp.outputDims.prod
    ∧ (itp.outputDims = [] → (p.processAudio audio length).result.length = 1)
    ∧ ((p.processAudio audio length).result = [] ↔ 0 ∈ itp.outputDims) := by
  have hL : (p.processAudio audio length).result.length = itp.outputDims.prod := by
    rw [processAudio_run p itp audio length hp hin hlen,
      runEngine_result_length itp _ hiv hout]
  refine ⟨hL, ?_, ?_⟩
  · intro hnil
    rw [hL, hnil]
    rfl
  · rw [← List.length_eq_zero, hL]
    exact List.prod_eq_zero_iff

/-- Witness for C10 on a working orchestrator with output shape `[10]`:
the vector has the product length 10 and is non-empty since no dimension
is 0. -/
theorem C10_rank0_length_one_empty_iff_zero_dim_witness :
    pGood.interpreter = some engGood
    ∧ ((pGood.processAudio (List.replicate 512 (0:ℤ)) 512).result.length
          = engGood.outputDims.prod
        ∧ (engGood.outputDims = []
            → (pGood.processAudio (List.replicate 512 (0:ℤ)) 512).result.length = 1)
        ∧ ((pGood.processAudio (List.replicate 512 (0:ℤ)) 512).result = []
            ↔ 0 ∈ engGood.outputDims)) :=
  ⟨rfl, C10_rank0_length_one_empty_iff_zero_dim pGood engGood
    (List.replicate 512 0) 512 rfl rfl rfl rfl (by decide)⟩
